import Mathlib

/-
  Shallow embedding of scripts/validate.py (Home Assistant blueprint validator).

  The YAML parser itself is an external collaborator: a per-document run is
  modelled as taking the raw file text together with the parse outcome
  (a generic YAML tree, a YAML syntax error with an optional 0-based
  problem-mark line, or a read failure).  Everything downstream of the parse
  - the BlueprintValidator rule passes - is translated here definition by
  definition from the source.

  Python dynamic typing is modelled explicitly: operations such as
  `key in value`, `value[key]`, `value.get(key)`, `value.items()` and
  `", ".join(...)` succeed or raise depending on the runtime type of the
  operand, exactly as in CPython.  The validator methods mutate two lists
  (errors and warnings); this is modelled as a state monad over that pair,
  with exceptions that preserve the state accumulated so far, mirroring how
  a raised exception leaves the already-appended diagnostics in place.
-/

namespace HABlueprint

/-- Prefix test on character lists: the first list is a prefix of the second. -/
def chPre : List Char → List Char → Bool
  | [], _ => true
  | _ :: _, [] => false
  | a :: ar, b :: br => a == b && chPre ar br

/-- Substring test on character lists: `pat` occurs contiguously in the list. -/
def chSub (pat : List Char) : List Char → Bool
  | [] => chPre pat []
  | c :: rest => chPre pat (c :: rest) || chSub pat rest

/-- Python's substring operator `pat in s` for strings. -/
def strContains (s pat : String) : Bool := chSub pat.toList s.toList

/-- Python's `s.strip()`: leading and trailing whitespace removed. -/
def pyStrip (s : String) : String :=
  String.mk (((s.toList.dropWhile (fun c => c.isWhitespace)).reverse.dropWhile
    (fun c => c.isWhitespace)).reverse)

/-- Python's `s.startswith(pat)`. -/
def pyStartswith (s pat : String) : Bool := chPre pat.toList s.toList

/-- Python's `s.endswith(pat)`. -/
def pyEndswith (s pat : String) : Bool := chPre pat.toList.reverse s.toList.reverse

/-- Helper for `splitLines`: accumulates the current line (reversed). -/
def splitLinesAux (acc : List Char) : List Char → List String
  | [] => [String.mk acc.reverse]
  | c :: rest =>
      if c == '\n' then String.mk acc.reverse :: splitLinesAux [] rest
      else splitLinesAux (c :: acc) rest

/-- Python's `content.split('\n')`: a trailing newline yields a final empty
piece, and the empty text yields one empty piece. -/
def splitLines (s : String) : List String := splitLinesAux [] s.toList

/-- Python's `len(line) - len(line.lstrip())`: number of leading whitespace
characters, used by the source as an indentation column. -/
def lstripLen (s : String) : Nat := (s.toList.takeWhile (fun c => c.isWhitespace)).length

/-- Generic YAML tree as produced by `yaml.safe_load`: scalars, sequences and
mappings.  Mapping keys are themselves YAML values, as in Python. -/
inductive Yaml where
  | null
  | bool (b : Bool)
  | int (n : Int)
  | str (s : String)
  | seq (items : List Yaml)
  | map (entries : List (Yaml × Yaml))

/-- Python truthiness of a loaded YAML value (`if blueprint:` etc.). -/
def Yaml.truthy : Yaml → Bool
  | .null => false
  | .bool b => b
  | .int n => n != 0
  | .str s => !(s == "")
  | .seq xs => !xs.isEmpty
  | .map es => !es.isEmpty

/-- Python's `isinstance(v, dict)`. -/
def Yaml.isMap : Yaml → Bool
  | .map _ => true
  | _ => false

/-- Python's `isinstance(v, list)`. -/
def Yaml.isSeq : Yaml → Bool
  | .seq _ => true
  | _ => false

/-- Python equality of a loaded YAML value against a string literal: true
exactly when the value is that string (no cross-type equality holds here). -/
def Yaml.eqStr : Yaml → String → Bool
  | .str s, t => s == t
  | _, _ => false

/-- The CPython type name of a value, as it appears in exception messages. -/
def Yaml.typeName : Yaml → String
  | .null => "NoneType"
  | .bool _ => "bool"
  | .int _ => "int"
  | .str _ => "str"
  | .seq _ => "list"
  | .map _ => "dict"

mutual
/-- Python's `repr` of a loaded YAML value (used by `str` inside containers). -/
def Yaml.pyRepr : Yaml → String
  | .null => "None"
  | .bool b => if b then "True" else "False"
  | .int n => toString n
  | .str s => "\x27" ++ s ++ "\x27"
  | .seq xs => "[" ++ String.intercalate ", " (reprList xs) ++ "]"
  | .map es => "\x7b" ++ String.intercalate ", " (reprPairs es) ++ "\x7d"

/-- Python repr of each element of a list of values. -/
def reprList : List Yaml → List String
  | [] => []
  | x :: xs => x.pyRepr :: reprList xs

/-- Python repr of each `key: value` pair of a mapping. -/
def reprPairs : List (Yaml × Yaml) → List String
  | [] => []
  | (k, v) :: es => (k.pyRepr ++ ": " ++ v.pyRepr) :: reprPairs es
end

/-- Python's `str` of a loaded YAML value, as interpolated by f-strings. -/
def Yaml.pyStr : Yaml → String
  | .str s => s
  | v => v.pyRepr

/-- Membership of a string key in a mapping (`key in dict`); false for any
non-mapping (callers only use this where the operand is known to be a dict). -/
def yMember (v : Yaml) (k : String) : Bool :=
  match v with
  | .map es => es.any (fun e => e.1.eqStr k)
  | _ => false

/-- Python's `dict.get(key, default)` on a value known to be a dict. -/
def mapGetD (v : Yaml) (k : String) (d : Yaml) : Yaml :=
  match v with
  | .map es =>
      match es.find? (fun e => e.1.eqStr k) with
      | some e => e.2
      | none => d
  | _ => d

/-- One diagnostic: file identifier, message, optional 1-based line number.
Mirrors the `ValidationError` record of the source. -/
structure Diag where
  file : String
  message : String
  line : Option Nat
deriving DecidableEq, Repr

/-- The mutable state of a `BlueprintValidator`: its `errors` and `warnings`
lists, appended to in rule order. -/
structure DState where
  errors : List Diag
  warnings : List Diag
deriving DecidableEq, Repr

/-- A Python computation over the validator state: it finishes in a final
state together with either a result or an uncaught exception (carrying the
exception text).  Appends made before a raise are kept, as in CPython. -/
def PyM (α : Type) : Type := DState → DState × Except String α

/-- Sequencing of Python computations: an exception short-circuits the rest
while preserving the state reached so far. -/
def pyBind {α β : Type} (m : PyM α) (f : α → PyM β) : PyM β := fun s =>
  match m s with
  | (s1, Except.ok a) => f a s1
  | (s1, Except.error e) => (s1, Except.error e)

/-- A pure Python value: no state change, no exception. -/
def pyPure {α : Type} (a : α) : PyM α := fun s => (s, Except.ok a)

instance : Monad PyM where
  pure := pyPure
  bind := pyBind

/-- Raising an exception with the given text. -/
def pyRaise {α : Type} (m : String) : PyM α := fun s => (s, Except.error m)

/-- Method `self.add_error(file, message, line)`: pure append to the error list. -/
def add_error (file msg : String) (line : Option Nat) : PyM Unit := fun s =>
  ({ s with errors := s.errors ++ [⟨file, msg, line⟩] }, Except.ok ())

/-- Method `self.add_warning(file, message, line)`: pure append to the warning list. -/
def add_warning (file msg : String) (line : Option Nat) : PyM Unit := fun s =>
  ({ s with warnings := s.warnings ++ [⟨file, msg, line⟩] }, Except.ok ())

/-- Appending a whole list of already-built warnings in order. -/
def emitWarnings (ds : List Diag) : PyM Unit := fun s =>
  ({ s with warnings := s.warnings ++ ds }, Except.ok ())

/-- Python's `key in value` for an arbitrary operand: key membership for a
dict, element equality for a list, substring test for a str, and a
`TypeError` for values that are not iterable. -/
def pyContains (k : String) (v : Yaml) : PyM Bool :=
  match v with
  | .map es => pyPure (es.any (fun e => e.1.eqStr k))
  | .seq xs => pyPure (xs.any (fun x => x.eqStr k))
  | .str s => pyPure (strContains s k)
  | _ => pyRaise ("TypeError: argument of type \x27" ++ v.typeName ++ "\x27 is not iterable")

/-- Python's `value[key]` with a string key: dict lookup (KeyError when
absent), and a `TypeError` for every other operand type. -/
def pySubscript (v : Yaml) (k : String) : PyM Yaml :=
  match v with
  | .map es =>
      match es.find? (fun e => e.1.eqStr k) with
      | some e => pyPure e.2
      | none => pyRaise ("KeyError: \x27" ++ k ++ "\x27")
  | .str _ => pyRaise "TypeError: string indices must be integers"
  | .seq _ => pyRaise "TypeError: list indices must be integers or slices, not str"
  | _ => pyRaise ("TypeError: \x27" ++ v.typeName ++ "\x27 object is not subscriptable")

/-- Python's `value.get(key)` (single-argument form, default None): only
dicts have the attribute; anything else raises `AttributeError`. -/
def pyDictGet (v : Yaml) (k : String) : PyM Yaml :=
  match v with
  | .map es =>
      pyPure (match es.find? (fun e => e.1.eqStr k) with
              | some e => e.2
              | none => Yaml.null)
  | _ => pyRaise ("AttributeError: \x27" ++ v.typeName ++ "\x27 object has no attribute \x27get\x27")

/-- Python's `value.items()`: only dicts have the attribute. -/
def pyItems (v : Yaml) : PyM (List (Yaml × Yaml)) :=
  match v with
  | .map es => pyPure es
  | _ => pyRaise ("AttributeError: \x27" ++ v.typeName ++ "\x27 object has no attribute \x27items\x27")

/-- The element check of Python's `sep.join(values)`: collects the strings
in order and raises `TypeError` at the first non-string element. -/
def pyJoinStrings : List Yaml → PyM (List String)
  | [] => pyPure []
  | Yaml.str s :: rest => do
      let r ← pyJoinStrings rest
      pyPure (s :: r)
  | v :: _ => pyRaise ("TypeError: sequence item: expected str instance, " ++ v.typeName ++ " found")

/-- Constant `BlueprintValidator.REQUIRED_BLUEPRINT_KEYS`. -/
def REQUIRED_BLUEPRINT_KEYS : List String := ["blueprint", "trigger", "action"]

/-- Constant `BlueprintValidator.REQUIRED_BLUEPRINT_META`. -/
def REQUIRED_BLUEPRINT_META : List String := ["name", "description", "domain"]

/-- Constant `BlueprintValidator.VALID_DOMAINS`. -/
def VALID_DOMAINS : List String := ["automation", "script"]

/-- The local `reserved_keywords` list of `validate_inputs`. -/
def reserved_keywords : List String := ["blueprint", "trigger", "condition", "action"]

/-- The diagnostic text of a missing required top-level key. -/
def missingKeyErr (file k : String) : Diag :=
  ⟨file, "Missing required top-level key: \x27" ++ k ++ "\x27", none⟩

/-- The diagnostic text of a missing required metadata key. -/
def metaMissingErr (file k : String) : Diag :=
  ⟨file, "Missing required blueprint metadata: \x27" ++ k ++ "\x27", none⟩

/-- The diagnostic text of a reserved input name. -/
def reservedErr (file : String) (n : Yaml) : Diag :=
  ⟨file, "Input name \x27" ++ n.pyStr ++ "\x27 is a reserved keyword", none⟩

/-- The diagnostic text of an input definition lacking `name`. -/
def missingNameWarn (file : String) (n : Yaml) : Diag :=
  ⟨file, "Input \x27" ++ n.pyStr ++ "\x27 missing \x27name\x27 property", none⟩

/-- The diagnostic text of an input definition lacking `selector`. -/
def missingSelectorWarn (file : String) (n : Yaml) : Diag :=
  ⟨file, "Input \x27" ++ n.pyStr ++ "\x27 missing \x27selector\x27 property", none⟩

/-- The diagnostic text of a trigger element lacking `platform`. -/
def platformErr (file : String) : Diag :=
  ⟨file, "Trigger missing required \x22platform\x22 key", none⟩

/-- The diagnostic text of the choose/default indentation warning. -/
def indentDiag (file : String) (dInd cInd lineNum : Nat) : Diag :=
  ⟨file, "Possible indentation issue: \x27default\x27 at column " ++ toString dInd ++ " may be misaligned with \x27choose\x27 at column " ++ toString cInd, some lineNum⟩

/-- The `for key in self.REQUIRED_BLUEPRINT_KEYS` loop of
`validate_structure`: one error per required key absent from the root. -/
def structKeysLoop (file : String) (blueprint : Yaml) : List String → PyM Unit
  | [] => pyPure ()
  | k :: ks => do
      if !(yMember blueprint k) then
        add_error file ("Missing required top-level key: \x27" ++ k ++ "\x27") none
      structKeysLoop file blueprint ks

/-- Method `BlueprintValidator.validate_structure`. -/
def validate_structure (file : String) (blueprint : Yaml) : PyM Unit :=
  if !blueprint.truthy || !blueprint.isMap then
    add_error file "Blueprint must be a valid YAML object" none
  else
    structKeysLoop file blueprint REQUIRED_BLUEPRINT_KEYS

/-- The `for key in self.REQUIRED_BLUEPRINT_META` loop of
`validate_metadata`.  The membership test is the dynamic `in`, which raises
for non-iterable metadata values. -/
def metaKeysLoop (file : String) (meta : Yaml) : List String → PyM Unit
  | [] => pyPure ()
  | k :: ks => do
      let c ← pyContains k meta
      if !c then
        add_error file ("Missing required blueprint metadata: \x27" ++ k ++ "\x27") none
      metaKeysLoop file meta ks

/-- Method `BlueprintValidator.validate_metadata`. -/
def validate_metadata (file : String) (meta : Yaml) : PyM Unit := do
  metaKeysLoop file meta REQUIRED_BLUEPRINT_META
  let hd ← pyContains "domain" meta
  if hd then do
    let d ← pySubscript meta "domain"
    if !(VALID_DOMAINS.any (fun v => d.eqStr v)) then
      add_error file ("Invalid domain: \x27" ++ d.pyStr ++ "\x27. Must be one of: " ++ String.intercalate ", " VALID_DOMAINS) none
  let hdesc ← pyContains "description" meta
  if hdesc then do
    let d ← pySubscript meta "description"
    match d with
    | Yaml.str ds =>
        if ds.length < 10 then
          add_warning file "Blueprint description is very short (< 10 characters)" none
    | _ => pyPure ()

/-- The `for input_name, input_def in inputs.items()` loop of
`validate_inputs`: non-mapping definitions are skipped by the `continue`
before any check, including the reserved-keyword check. -/
def inputsLoop (file : String) : List (Yaml × Yaml) → PyM Unit
  | [] => pyPure ()
  | (input_name, input_def) :: rest => do
      if input_def.isMap then do
        if !(yMember input_def "name") then
          add_warning file ("Input \x27" ++ input_name.pyStr ++ "\x27 missing \x27name\x27 property") none
        if !(yMember input_def "selector") then
          add_warning file ("Input \x27" ++ input_name.pyStr ++ "\x27 missing \x27selector\x27 property") none
        if reserved_keywords.any (fun r => input_name.eqStr r) then
          add_error file ("Input name \x27" ++ input_name.pyStr ++ "\x27 is a reserved keyword") none
      inputsLoop file rest

/-- Method `BlueprintValidator.validate_inputs`. -/
def validate_inputs (file : String) (inputs : Yaml) : PyM Unit :=
  match inputs with
  | Yaml.map entries => inputsLoop file entries
  | _ => add_error file "Blueprint inputs must be an object" none

/-- The `for trigger in triggers` loop of `validate_triggers`. -/
def triggersLoop (file : String) : List Yaml → PyM Unit
  | [] => pyPure ()
  | t :: ts => do
      if t.isMap && !(yMember t "platform") then
        add_error file "Trigger missing required \x22platform\x22 key" none
      triggersLoop file ts

/-- Method `BlueprintValidator.validate_triggers`. -/
def validate_triggers (file : String) (triggers : Yaml) : PyM Unit :=
  match triggers with
  | Yaml.seq ts =>
      if ts.isEmpty then
        add_warning file "No triggers defined" none
      else
        triggersLoop file ts
  | _ => add_error file "Triggers must be an array" none

/-- Method `BlueprintValidator.validate_actions`. -/
def validate_actions (file : String) (actions : Yaml) : PyM Unit :=
  match actions with
  | Yaml.seq acts =>
      if acts.isEmpty then
        add_warning file "No actions defined" none
      else
        pyPure ()
  | _ => add_error file "Actions must be an array" none

/-- The line matched by the backward scan of `check_common_mistakes`:
`'- choose:' in prev_line.strip() or prev_line.strip() == 'choose:'`. -/
def chooseMatch (l : String) : Bool :=
  strContains (pyStrip l) "- choose:" || pyStrip l == "choose:"

/-- The index sequence of `range(i - 1, max(0, i - 50), -1)`: the indices
strictly between `max 0 (i - 50)` and `i`, in descending order. -/
def scanIdxs (i : Nat) : List Nat :=
  (List.range' (i - 50 + 1) (i - (i - 50 + 1))).reverse

/-- Specification-side description of the backward-scan window actually used
by the source: the line indices strictly between `max 0 (i - 50)` and `i`,
in ascending order (at most 49 previous lines; index `max 0 (i - 50)` itself
is excluded, so the first line of the document is never examined). -/
def chooseWindow (i : Nat) : List Nat :=
  (List.range i).filter (fun j => i - 50 < j)

/-- Specification-side description of the backward-scan result: the nearest
(largest) index in the window whose line matches the choose pattern. -/
def nearestChooseSpec (lines : List String) (i : Nat) : Option Nat :=
  ((chooseWindow i).filter (fun j => chooseMatch (lines.getD j ""))).getLast?

/-- The choose/default indentation check performed for one physical line by
`check_common_mistakes` (the `line.strip().startswith('default:')` block). -/
def defaultIndentWarn (file : String) (lines : List String) (i : Nat) (line : String) : List Diag :=
  if pyStartswith (pyStrip line) "default:" then
    let dInd := lstripLen line
    match (scanIdxs i).find? (fun j => chooseMatch (lines.getD j "")) with
    | none => []
    | some j =>
        let prev := lines.getD j ""
        let cInd := lstripLen prev
        let expected := if pyStartswith (pyStrip prev) "-" then cInd else cInd + 2
        if dInd != expected then
          [⟨file, "Possible indentation issue: \x27default\x27 at column " ++ toString dInd ++ " may be misaligned with \x27choose\x27 at column " ++ toString cInd, some (i + 1)⟩]
        else []
  else []

/-- The unclosed-template check performed for one physical line by
`check_common_mistakes`. -/
def unclosedTemplateWarn (file line : String) (lineNum : Nat) : List Diag :=
  if strContains line "\x7b\x7b" && !(strContains line "\x7d\x7d") then
    if !([">", "|", ">-", "|-", ">+", "|+"].any (fun c => pyEndswith (pyStrip line) c)) then
      [⟨file, "Possible unclosed template expression", some lineNum⟩]
    else []
  else []

/-- The misplaced `!input` condition check performed for one physical line by
`check_common_mistakes`. -/
def conditionInputWarn (file line : String) (lineNum : Nat) : List Diag :=
  if strContains line "  - condition: !input" then
    [⟨file, "Possible incorrect !input usage in condition list", some lineNum⟩]
  else []

/-- Specification-side predicate selecting the unclosed-template warning
attributed to the 1-based line number `i + 1`. -/
def uncPred (i : Nat) (d : Diag) : Bool :=
  d.message == "Possible unclosed template expression" && d.line == some (i + 1)

/-- All warnings contributed by one physical line, in the order the source
appends them: indentation check, template check, `!input` check. -/
def perLineDiags (file : String) (lines : List String) (i : Nat) (line : String) : List Diag :=
  defaultIndentWarn file lines i line ++
    unclosedTemplateWarn file line (i + 1) ++
    conditionInputWarn file line (i + 1)

/-- The `for i, line in enumerate(lines)` loop of `check_common_mistakes`. -/
def lineLoop (file : String) (lines : List String) : List Diag :=
  ((List.range lines.length).map (fun i => perLineDiags file lines i (lines.getD i ""))).flatten

/-- All raw-text warnings of `check_common_mistakes`: the tab check followed
by the per-line checks over `content.split('\n')`. -/
def textWarnings (file content : String) : List Diag :=
  (if strContains content "\t" then
    [⟨file, "File contains tabs. YAML should use spaces for indentation", none⟩]
  else []) ++ lineLoop file (splitLines content)

/-- Method `BlueprintValidator.check_common_mistakes`. -/
def check_common_mistakes (file : String) (blueprint : Yaml) (content : String) : PyM Unit := do
  emitWarnings (textWarnings file content)
  if blueprint.truthy && blueprint.isMap then do
    let dom ← pyDictGet (mapGetD blueprint "blueprint" (Yaml.map [])) "domain"
    if dom.eqStr "automation" then
      if !(yMember blueprint "mode") then
        add_warning file "Consider setting \x22mode\x22 for automation (e.g., restart, single, parallel)" none
    if yMember blueprint "blueprint" then do
      let bval ← pySubscript blueprint "blueprint"
      let hi ← pyContains "input" bval
      if hi then do
        let inp ← pySubscript bval "input"
        let its ← pyItems inp
        let iwd := (its.filter (fun p => p.2.isMap && !(yMember p.2 "default"))).map (fun p => p.1)
        if !iwd.isEmpty then do
          let names ← pyJoinStrings (iwd.take 3)
          let preview0 := String.intercalate ", " names
          let preview := if iwd.length > 3 then preview0 ++ "..." else preview0
          add_warning file (toString iwd.length ++ " input(s) without default values: " ++ preview) none

/-- The outcome of reading and parsing one blueprint file, the external
parser being out of scope: a tree, a `yaml.YAMLError` whose problem mark
carries an optional 0-based line, or any other read failure. -/
inductive ParseResult where
  | ok (tree : Yaml)
  | yamlError (msg : String) (problemLine : Option Nat)
  | readError (msg : String)

/-- Method `BlueprintValidator.validate_blueprint`: the per-document entry point.
Steps 2-7 of the source, with every dynamically-typed guard evaluated in
source order (`blueprint and 'blueprint' in blueprint`, etc.). -/
def validate_blueprint (file content : String) (parsed : ParseResult) : PyM Unit := do
  match parsed with
  | ParseResult.yamlError msg mark =>
      add_error file ("YAML syntax error: " ++ msg) (mark.map (fun l => l + 1))
  | ParseResult.readError msg =>
      add_error file ("Failed to read or parse file: " ++ msg) none
  | ParseResult.ok blueprint => do
      validate_structure file blueprint
      let g3 ← if blueprint.truthy then pyContains "blueprint" blueprint else pyPure false
      if g3 then do
        let meta ← pySubscript blueprint "blueprint"
        validate_metadata file meta
      let g4 ← if blueprint.truthy then do
          let c ← pyContains "blueprint" blueprint
          if c then do
            let m ← pySubscript blueprint "blueprint"
            pyContains "input" m
          else pyPure false
        else pyPure false
      if g4 then do
        let m ← pySubscript blueprint "blueprint"
        let inp ← pySubscript m "input"
        validate_inputs file inp
      let g5 ← if blueprint.truthy then pyContains "trigger" blueprint else pyPure false
      if g5 then do
        let t ← pySubscript blueprint "trigger"
        validate_triggers file t
      let g6 ← if blueprint.truthy then pyContains "action" blueprint else pyPure false
      if g6 then do
        let a ← pySubscript blueprint "action"
        validate_actions file a
      check_common_mistakes file blueprint content

/-- Method `BlueprintValidator.print_results`: the verdict is that no errors exist. -/
def print_results : PyM Bool := fun s => (s, Except.ok s.errors.isEmpty)

/-- The `for file in files` loop of `validate_all`. -/
def runDocs : List (String × String × ParseResult) → PyM Unit
  | [] => pyPure ()
  | d :: ds => do
      validate_blueprint d.1 d.2.1 d.2.2
      runDocs ds

/-- Method `BlueprintValidator.validate_all`: here `none` models a missing blueprints
directory, `some docs` the discovered documents (file id, raw text, parse
outcome) in discovery order. -/
def validate_all (dir : Option (List (String × String × ParseResult))) : PyM Bool :=
  match dir with
  | none => do
      add_error "blueprints/" "Blueprints directory not found" none
      pyPure false
  | some docs =>
      if docs.isEmpty then pyPure true
      else do
        runDocs docs
        print_results

/- ===================== Theorems ===================== -/

/-- Unfolding of monadic bind for `PyM`. -/
theorem bindEq {α β : Type} (m : PyM α) (f : α → PyM β) : m >>= f = pyBind m f := rfl

/-- Unfolding of monadic pure for `PyM`. -/
theorem pureEq {α : Type} (a : α) : (pure a : PyM α) = pyPure a := rfl

/-- Claim C10: when the blueprints directory is missing, the batch run
records exactly one file-level error and returns failure without running any
per-document validation; an existing directory with zero documents returns
success with no diagnostics at all. -/
theorem C10_directory_missing (s : DState) :
    validate_all none s =
      ({ s with errors := s.errors ++ [⟨"blueprints/", "Blueprints directory not found", none⟩] },
       Except.ok false) ∧
    validate_all (some []) s = (s, Except.ok true) :=
  ⟨rfl, rfl⟩

/-- Witness for C10 at the empty initial state. -/
theorem C10_directory_missing_witness :
    validate_all none ⟨[], []⟩ =
      ({ errors := [⟨"blueprints/", "Blueprints directory not found", none⟩], warnings := [] },
       Except.ok false) ∧
    validate_all (some []) ⟨[], []⟩ = (⟨[], []⟩, Except.ok true) :=
  C10_directory_missing ⟨[], []⟩

/-- Claim C5: a document whose text fails to parse records exactly one
parse-error diagnostic (1-based line number when the parser exposes a
problem mark, otherwise none), no other rule runs for it, and the batch
loop continues with the remaining documents from exactly that state. -/
theorem C5_parse_error_isolated (file content msg : String) (mark : Option Nat) (s : DState)
    (rest : List (String × String × ParseResult)) :
    validate_blueprint file content (ParseResult.yamlError msg mark) s =
      ({ s with errors := s.errors ++ [⟨file, "YAML syntax error: " ++ msg, mark.map (fun l => l + 1)⟩] },
       Except.ok ()) ∧
    runDocs ((file, content, ParseResult.yamlError msg mark) :: rest) s =
      runDocs rest
        { s with errors := s.errors ++ [⟨file, "YAML syntax error: " ++ msg, mark.map (fun l => l + 1)⟩] } :=
  ⟨rfl, rfl⟩

/-- Claim C1 (failing input): on the ten-character document `blueprint:`, whose
parsed root maps `blueprint` to null, the per-document entry point does not
terminate normally: `validate_metadata` evaluates `'name' not in None` and
the TypeError escapes past the per-document boundary (the structure errors
recorded before the raise remain). -/
theorem C1_typeerror_escapes :
    validate_blueprint "blueprint.yaml" "blueprint:"
        (ParseResult.ok (Yaml.map [(Yaml.str "blueprint", Yaml.null)])) ⟨[], []⟩ =
      (⟨[⟨"blueprint.yaml", "Missing required top-level key: \x27trigger\x27", none⟩,
         ⟨"blueprint.yaml", "Missing required top-level key: \x27action\x27", none⟩], []⟩,
       Except.error "TypeError: argument of type \x27NoneType\x27 is not iterable") :=
  rfl

/-- Claim C2 (counterexample): an input named `action` whose definition is
null produces zero diagnostics, not the one reserved-keyword error the claim
demands regardless of definition shape - the `continue` for non-mapping
definitions skips the reserved-keyword check. -/
theorem C2_reserved_scalar_skipped :
    validate_inputs "f.yaml" (Yaml.map [(Yaml.str "action", Yaml.null)]) ⟨[], []⟩ =
      (⟨[], []⟩, Except.ok ()) :=
  rfl

/-- Claim C3 (counterexample): a document whose root is the YAML list with
the single element given by the text `- '\x7b\x7b x'` records the structure error
and additionally one unclosed-template warning - not "no other diagnostic of
any kind": the raw-text heuristics still run for list roots. -/
theorem C3_list_root_extra_warning :
    validate_blueprint "f.yaml" "- \x27\x7b\x7b x\x27"
        (ParseResult.ok (Yaml.seq [Yaml.str "\x7b\x7b x"])) ⟨[], []⟩ =
      (⟨[⟨"f.yaml", "Blueprint must be a valid YAML object", none⟩],
        [⟨"f.yaml", "Possible unclosed template expression", some 1⟩]⟩, Except.ok ()) :=
  rfl

/-- Claim C4 (counterexample): with `choose:` on the first physical line and
a misaligned `default:` on the second, the claim demands a warning (the
choose line is within the previous 50 lines, its column 0 plus 2 differs
from the default column 0), but the scan `range(i - 1, max(0, i - 50), -1)`
is empty for i = 1 - the first line of the file is never examined - so the
heuristic emits nothing. -/
theorem C4_first_line_never_scanned :
    lineLoop "f.yaml" ["choose:", "default:"] = [] :=
  rfl

/-- Claim C6: the minimal valid document (blueprint metadata complete, valid
domain, empty input mapping, one state trigger, one service action, explicit
mode) validated from a clean text yields zero errors and zero warnings. -/
theorem C6_minimal_valid_clean :
    validate_blueprint "automation.yaml"
        ("blueprint:\n  name: \"X\"\n  description: \"A long enough description\"\n  domain: automation\n  input: \x7b\x7d\ntrigger:\n  - platform: state\naction:\n  - service: x\nmode: single")
        (ParseResult.ok (Yaml.map [
          (Yaml.str "blueprint", Yaml.map [
            (Yaml.str "name", Yaml.str "X"),
            (Yaml.str "description", Yaml.str "A long enough description"),
            (Yaml.str "domain", Yaml.str "automation"),
            (Yaml.str "input", Yaml.map [])]),
          (Yaml.str "trigger", Yaml.seq [Yaml.map [(Yaml.str "platform", Yaml.str "state")]]),
          (Yaml.str "action", Yaml.seq [Yaml.map [(Yaml.str "service", Yaml.str "x")]]),
          (Yaml.str "mode", Yaml.str "single")])) ⟨[], []⟩ =
      (⟨[], []⟩, Except.ok ()) :=
  rfl

/-- The `validate_structure` key loop appends one error per required key not
present in the root, in list order. -/
theorem structKeysLoop_spec (file : String) (bp : Yaml) (ks : List String) (s : DState) :
    structKeysLoop file bp ks s =
      ({ s with errors := s.errors ++ (ks.filter (fun k => !(yMember bp k))).map (missingKeyErr file) },
       Except.ok ()) := by
  induction ks generalizing s with
  | nil => simp [structKeysLoop, pyPure]
  | cons k ks ih =>
      by_cases h : yMember bp k = true
      · simp [structKeysLoop, bindEq, pyBind, pyPure, pureEq, h, ih]
      · simp [structKeysLoop, bindEq, pyBind, pyPure, pureEq, add_error, h, ih, missingKeyErr]

/-- The `validate_triggers` element loop appends one error per mapping-typed
element lacking a `platform` key and nothing for any other element. -/
theorem triggersLoop_spec (file : String) (ts : List Yaml) (s : DState) :
    triggersLoop file ts s =
      ({ s with errors := s.errors ++ (ts.filter (fun t => t.isMap && !(yMember t "platform"))).map (fun _ => platformErr file) },
       Except.ok ()) := by
  induction ts generalizing s with
  | nil => simp [triggersLoop, pyPure]
  | cons t ts ih =>
      by_cases h : (t.isMap && !(yMember t "platform")) = true
      · simp [triggersLoop, bindEq, pyBind, pyPure, pureEq, add_error, h, ih, platformErr]
      · simp [triggersLoop, bindEq, pyBind, pyPure, pureEq, h, ih]

/-- The `validate_inputs` entry loop: entries with non-mapping definitions
contribute nothing at all; mapping-valued entries contribute the two missing
property warnings and, when the name is reserved, exactly one error. -/
theorem inputsLoop_spec (file : String) (entries : List (Yaml × Yaml)) (s : DState) :
    inputsLoop file entries s =
      ({ errors := s.errors ++ (entries.filter (fun p => p.2.isMap && reserved_keywords.any (fun r => p.1.eqStr r))).map (fun p => reservedErr file p.1)
        , warnings := s.warnings ++ (entries.map (fun p =>
            (if p.2.isMap && !(yMember p.2 "name") then [missingNameWarn file p.1] else []) ++
            (if p.2.isMap && !(yMember p.2 "selector") then [missingSelectorWarn file p.1] else []))).flatten },
       Except.ok ()) := by
  induction entries generalizing s with
  | nil => simp [inputsLoop, pyPure]
  | cons p entries ih =>
      obtain ⟨n, d⟩ := p
      by_cases h1 : d.isMap = true
      · by_cases h2 : yMember d "name" = true
        · by_cases h3 : yMember d "selector" = true
          · by_cases h4 : reserved_keywords.any (fun r => n.eqStr r) = true
            · simp [inputsLoop, bindEq, pyBind, pyPure, pureEq, add_error, add_warning, h1, h2, h3, h4, ih, reservedErr, missingNameWarn, missingSelectorWarn]
            · simp [inputsLoop, bindEq, pyBind, pyPure, pureEq, add_error, add_warning, h1, h2, h3, h4, ih, reservedErr, missingNameWarn, missingSelectorWarn]
          · by_cases h4 : reserved_keywords.any (fun r => n.eqStr r) = true
            · simp [inputsLoop, bindEq, pyBind, pyPure, pureEq, add_error, add_warning, h1, h2, h3, h4, ih, reservedErr, missingNameWarn, missingSelectorWarn]
            · simp [inputsLoop, bindEq, pyBind, pyPure, pureEq, add_error, add_warning, h1, h2, h3, h4, ih, reservedErr, missingNameWarn, missingSelectorWarn]
        · by_cases h3 : yMember d "selector" = true
          · by_cases h4 : reserved_keywords.any (fun r => n.eqStr r) = true
            · simp [inputsLoop, bindEq, pyBind, pyPure, pureEq, add_error, add_warning, h1, h2, h3, h4, ih, reservedErr, missingNameWarn, missingSelectorWarn]
            · simp [inputsLoop, bindEq, pyBind, pyPure, pureEq, add_error, add_warning, h1, h2, h3, h4, ih, reservedErr, missingNameWarn, missingSelectorWarn]
          · by_cases h4 : reserved_keywords.any (fun r => n.eqStr r) = true
            · simp [inputsLoop, bindEq, pyBind, pyPure, pureEq, add_error, add_warning, h1, h2, h3, h4, ih, reservedErr, missingNameWarn, missingSelectorWarn]
            · simp [inputsLoop, bindEq, pyBind, pyPure, pureEq, add_error, add_warning, h1, h2, h3, h4, ih, reservedErr, missingNameWarn, missingSelectorWarn]
      · simp [inputsLoop, bindEq, pyBind, pyPure, pureEq, h1, ih]

/-- Claim C2 (amended): the reserved-keyword error is recorded exactly for
the reserved-named entries whose definition value is a mapping; entries with
scalar, sequence or null definitions are skipped before the check. -/
theorem C2_reserved_only_for_mapping_defs (file : String) (entries : List (Yaml × Yaml)) (s : DState) :
    (validate_inputs file (Yaml.map entries) s).1.errors =
      s.errors ++ (entries.filter (fun p => p.2.isMap && reserved_keywords.any (fun r => p.1.eqStr r))).map (fun p => reservedErr file p.1) ∧
    (validate_inputs file (Yaml.map entries) s).2 = Except.ok () := by
  simp [validate_inputs, inputsLoop_spec]

/-- Claim C9: for a root that is a non-empty mapping, the structure rule
records exactly one error per required top-level key absent from the root
(the required-key list has no duplicates, so neither do the errors). -/
theorem C9_missing_required_keys (file : String) (es : List (Yaml × Yaml)) (s : DState)
    (h : (Yaml.map es).truthy = true) :
    validate_structure file (Yaml.map es) s =
      ({ s with errors := s.errors ++ (REQUIRED_BLUEPRINT_KEYS.filter (fun k => !(yMember (Yaml.map es) k))).map (missingKeyErr file) },
       Except.ok ()) := by
  simp [validate_structure, h, Yaml.isMap, structKeysLoop_spec]

/-- Witness for C9: a root holding only `blueprint` is missing exactly
`trigger` and `action`, one error each. -/
theorem C9_missing_required_keys_witness :
    (Yaml.map [(Yaml.str "blueprint", Yaml.null)]).truthy = true ∧
    validate_structure "f.yaml" (Yaml.map [(Yaml.str "blueprint", Yaml.null)]) ⟨[], []⟩ =
      (⟨[⟨"f.yaml", "Missing required top-level key: \x27trigger\x27", none⟩,
         ⟨"f.yaml", "Missing required top-level key: \x27action\x27", none⟩], []⟩, Except.ok ()) :=
  ⟨rfl, Eq.trans (C9_missing_required_keys "f.yaml" [(Yaml.str "blueprint", Yaml.null)] ⟨[], []⟩ rfl) rfl⟩

/-- Claim C8: with `trigger` present, a non-sequence value yields exactly one
error and nothing else; an empty sequence exactly one warning and zero
errors; a non-empty sequence one error per mapping-typed element lacking
`platform`, with non-mapping elements contributing nothing. -/
theorem C8_triggers_rule (file : String) (v : Yaml) (s : DState) :
    validate_triggers file v s =
      ((match v with
        | Yaml.seq [] => { s with warnings := s.warnings ++ [⟨file, "No triggers defined", none⟩] }
        | Yaml.seq ts => { s with errors := s.errors ++ (ts.filter (fun t => t.isMap && !(yMember t "platform"))).map (fun _ => platformErr file) }
        | _ => { s with errors := s.errors ++ [⟨file, "Triggers must be an array", none⟩] }),
       Except.ok ()) := by
  cases v with
  | seq ts =>
      cases ts with
      | nil => simp [validate_triggers, add_warning]
      | cons t ts => simp [validate_triggers, triggersLoop_spec]
  | null => simp [validate_triggers, add_error]
  | bool b => simp [validate_triggers, add_error]
  | int n => simp [validate_triggers, add_error]
  | str s2 => simp [validate_triggers, add_error]
  | map es => simp [validate_triggers, add_error]

/-- Claim C3 (amended): a document whose parsed root is a YAML list, none of
whose elements equals one of the strings `blueprint`, `trigger`, `action`,
records exactly one structure error; the metadata, inputs, triggers and
actions rules are all skipped, but the raw-text heuristics still run, so the
warnings are exactly the text warnings of the document (and only a text with
no tab, no heuristic-matching line, yields no further diagnostic at all). -/
theorem C3_list_root (file content : String) (items : List Yaml)
    (h1 : items.any (fun x => x.eqStr "blueprint") = false)
    (h2 : items.any (fun x => x.eqStr "trigger") = false)
    (h3 : items.any (fun x => x.eqStr "action") = false) :
    validate_blueprint file content (ParseResult.ok (Yaml.seq items)) ⟨[], []⟩ =
      (⟨[⟨file, "Blueprint must be a valid YAML object", none⟩], textWarnings file content⟩,
       Except.ok ()) := by
  by_cases ht : (Yaml.seq items).truthy = true
  · simp [validate_blueprint, validate_structure, check_common_mistakes, bindEq, pureEq,
          pyBind, pyPure, add_error, emitWarnings, pyContains, ht, h1, h2, h3, Yaml.isMap]
  · simp [validate_blueprint, validate_structure, check_common_mistakes, bindEq, pureEq,
          pyBind, pyPure, add_error, emitWarnings, ht, Yaml.isMap]

/-- Witness for C3 (amended) at the empty-list document `[]`. -/
theorem C3_list_root_witness :
    ([] : List Yaml).any (fun x => x.eqStr "blueprint") = false ∧
    validate_blueprint "f.yaml" "[]" (ParseResult.ok (Yaml.seq [])) ⟨[], []⟩ =
      (⟨[⟨"f.yaml", "Blueprint must be a valid YAML object", none⟩], textWarnings "f.yaml" "[]"⟩,
       Except.ok ()) :=
  ⟨rfl, C3_list_root "f.yaml" "[]" [] rfl rfl rfl⟩

/-- Filtering `range n` by being above a bound gives a contiguous range. -/
theorem range_filter_gt (n s : Nat) :
    (List.range n).filter (fun j => decide (s < j)) = List.range' (s + 1) (n - (s + 1)) := by
  induction n with
  | zero => simp
  | succ n ih =>
      rw [List.range_succ, List.filter_append, ih]
      by_cases h : s < n
      · have h1 : n + 1 - (s + 1) = (n - (s + 1)) + 1 := by omega
        have h2 : s + 1 + 1 * (n - (s + 1)) = n := by omega
        rw [h1, List.range'_concat, h2]
        simp [h]
      · have h1 : n + 1 - (s + 1) = 0 := by omega
        have h2 : n - (s + 1) = 0 := by omega
        rw [h1, h2]
        simp [h, List.filter_singleton]

/-- Computing `getLast?` of a cons, written with `Option.or`. -/
theorem getLast?_cons_or {α : Type _} (a : α) (l : List α) :
    (a :: l).getLast? = (l.getLast?).or (some a) := by
  induction l generalizing a with
  | nil => rfl
  | cons b t ih =>
      rw [List.getLast?_cons_cons, ih b, Option.or_assoc]
      rfl

/-- Searching a reversed list finds the last match of the original list. -/
theorem reverse_find?_eq_filter_getLast? {α : Type _} (p : α → Bool) (l : List α) :
    l.reverse.find? p = (l.filter p).getLast? := by
  induction l with
  | nil => rfl
  | cons a t ih =>
      rw [List.reverse_cons, List.find?_append, ih, List.filter_cons]
      by_cases h : p a = true
      · rw [if_pos h, getLast?_cons_or]
        have hfa : List.find? p [a] = some a := by simp [List.find?, h]
        rw [hfa]
      · rw [if_neg h]
        have hfa : List.find? p [a] = none := by simp [List.find?, h]
        rw [hfa, Option.or_none]

/-- The descending scan of the source enumerates exactly the reversed
specification window. -/
theorem scanIdxs_eq (i : Nat) : scanIdxs i = (chooseWindow i).reverse := by
  unfold scanIdxs chooseWindow
  rw [range_filter_gt]

/-- Claim C4 (amended): for a `default:` line at index i, the heuristic
consults the nearest choose line among the indices strictly between
`max 0 (i - 50)` and `i` - at most 49 previous lines, never the document's
first line - and warns exactly when the default column differs from that
choose line's column, plus 2 when the choose line is not itself a sequence
item and plus 0 when it is; with no match in that window it emits nothing. -/
theorem C4_default_scan (file : String) (lines : List String) (i : Nat) (line : String)
    (h : pyStartswith (pyStrip line) "default:" = true) :
    defaultIndentWarn file lines i line =
      (match nearestChooseSpec lines i with
       | none => []
       | some j =>
           if lstripLen line != (if pyStartswith (pyStrip (lines.getD j "")) "-" then lstripLen (lines.getD j "") else lstripLen (lines.getD j "") + 2) then
             [indentDiag file (lstripLen line) (lstripLen (lines.getD j "")) (i + 1)]
           else []) := by
  unfold defaultIndentWarn nearestChooseSpec
  rw [if_pos h, scanIdxs_eq, reverse_find?_eq_filter_getLast?]
  cases hv : (List.filter (fun j => chooseMatch (lines.getD j "")) (chooseWindow i)).getLast? with
  | none => rfl
  | some j => rfl

/-- Witness for C4 (amended): `choose:` two lines up at column 2 (not a
sequence item, so a matching default column would be 4) and `default:` at
column 2 produce exactly one indentation warning for line 3. -/
theorem C4_default_scan_witness :
    pyStartswith (pyStrip "  default:") "default:" = true ∧
    defaultIndentWarn "f.yaml" ["a", "  choose:", "  default:"] 2 "  default:" =
      [indentDiag "f.yaml" 2 2 3] :=
  ⟨rfl, C4_default_scan "f.yaml" ["a", "  choose:", "  default:"] 2 "  default:" rfl⟩

/-- An indentation warning never carries the unclosed-template message
(their lengths already differ). -/
theorem indentMsg_ne (a b : String) :
    ("Possible indentation issue: \x27default\x27 at column " ++ a ++ " may be misaligned with \x27choose\x27 at column " ++ b) ≠ "Possible unclosed template expression" := by
  intro h
  have hlen := congrArg String.length h
  rw [String.length_append, String.length_append, String.length_append] at hlen
  have h1 : ("Possible indentation issue: \x27default\x27 at column ").length = 48 := rfl
  have h2 : (" may be misaligned with \x27choose\x27 at column ").length = 43 := rfl
  have h3 : ("Possible unclosed template expression").length = 37 := rfl
  omega

/-- Shape of any diagnostic produced by the indentation check. -/
theorem defaultIndentWarn_shape (file : String) (lines : List String) (j : Nat) (l : String)
    (d : Diag) (hd : d ∈ defaultIndentWarn file lines j l) :
    ∃ a b, d = ⟨file, "Possible indentation issue: \x27default\x27 at column " ++ a ++ " may be misaligned with \x27choose\x27 at column " ++ b, some (j + 1)⟩ := by
  simp only [defaultIndentWarn] at hd
  split at hd
  · split at hd
    · simp at hd
    · split at hd
      · split at hd
        · rw [List.mem_singleton] at hd
          exact ⟨_, _, hd⟩
        · simp at hd
      · split at hd
        · rw [List.mem_singleton] at hd
          exact ⟨_, _, hd⟩
        · simp at hd
  · simp at hd

/-- The indentation check never contributes an unclosed-template count. -/
theorem countP_uncPred_defaultIndent (file : String) (lines : List String) (j : Nat) (l : String)
    (i : Nat) : (defaultIndentWarn file lines j l).countP (uncPred i) = 0 := by
  rw [List.countP_eq_zero]
  intro d hd
  obtain ⟨a, b, rfl⟩ := defaultIndentWarn_shape file lines j l d hd
  simp [uncPred, beq_eq_false_iff_ne.mpr (indentMsg_ne a b)]

/-- The misplaced-input check never contributes an unclosed-template count. -/
theorem countP_uncPred_conditionInput (file l : String) (n i : Nat) :
    (conditionInputWarn file l n).countP (uncPred i) = 0 := by
  unfold conditionInputWarn
  split
  · simp [uncPred]
  · rfl

/-- The template check for physical line j contributes exactly one
unclosed-template warning for line number i + 1 when j = i and the line
matches the heuristic condition, and zero otherwise. -/
theorem countP_uncPred_unclosed (file l : String) (j i : Nat) :
    (unclosedTemplateWarn file l (j + 1)).countP (uncPred i) =
      (if j = i then
        (if strContains l "\x7b\x7b" && !(strContains l "\x7d\x7d") && !([">", "|", ">-", "|-", ">+", "|+"].any (fun c => pyEndswith (pyStrip l) c)) then 1 else 0)
      else 0) := by
  unfold unclosedTemplateWarn
  by_cases hA : (strContains l "\x7b\x7b" && !(strContains l "\x7d\x7d")) = true
  · by_cases hB : (!([">", "|", ">-", "|-", ">+", "|+"].any (fun c => pyEndswith (pyStrip l) c))) = true
    · rw [if_pos hA, if_pos hB]
      by_cases hji : j = i
      · subst hji
        rw [if_pos rfl, hA, hB]
        simp [uncPred, List.countP_cons]
      · rw [if_neg hji]
        simp [uncPred, List.countP_cons, hji]
    · rw [if_pos hA, if_neg hB]
      have hB2 : (!([">", "|", ">-", "|-", ">+", "|+"].any (fun c => pyEndswith (pyStrip l) c))) = false :=
        Bool.eq_false_iff.mpr hB
      rw [hB2]
      simp
  · rw [if_neg hA]
    have hA2 : (strContains l "\x7b\x7b" && !(strContains l "\x7d\x7d")) = false :=
      Bool.eq_false_iff.mpr hA
    rw [hA2]
    simp

/-- Unclosed-template count contributed by one physical line. -/
theorem countP_uncPred_perLine (file : String) (lines : List String) (j i : Nat) (l : String) :
    (perLineDiags file lines j l).countP (uncPred i) =
      (if j = i then
        (if strContains l "\x7b\x7b" && !(strContains l "\x7d\x7d") && !([">", "|", ">-", "|-", ">+", "|+"].any (fun c => pyEndswith (pyStrip l) c)) then 1 else 0)
      else 0) := by
  unfold perLineDiags
  rw [List.countP_append, List.countP_append, countP_uncPred_defaultIndent,
      countP_uncPred_conditionInput, countP_uncPred_unclosed]
  simp

/-- A flattened indexed family with all-zero counts has zero count. -/
theorem flatten_range_countP_zero {p : Diag → Bool} (f : Nat → List Diag) (n : Nat)
    (h : ∀ j, j < n → (f j).countP p = 0) :
    (((List.range n).map f).flatten).countP p = 0 := by
  rw [List.countP_flatten, List.map_map]
  apply List.sum_eq_zero
  intro x hx
  rw [List.mem_map] at hx
  obtain ⟨j, hj, rfl⟩ := hx
  exact h j (List.mem_range.mp hj)

/-- A flattened indexed family whose only nonzero count sits at index i has
exactly that count. -/
theorem flatten_range_countP_single {p : Diag → Bool} (f : Nat → List Diag) (n i c : Nat)
    (hc : (f i).countP p = c) :
    i < n → (∀ j, j < n → j ≠ i → (f j).countP p = 0) →
    (((List.range n).map f).flatten).countP p = c := by
  induction n with
  | zero => intro hi _; omega
  | succ n ih =>
      intro hi hz
      rw [List.range_succ, List.map_append, List.flatten_append, List.countP_append]
      by_cases hin : i = n
      · subst hin
        rw [flatten_range_countP_zero f i (fun j hj => hz j (by omega) (by omega))]
        simp [hc]
      · rw [ih (by omega) (fun j hj hji => hz j (by omega) hji)]
        have h0 : (f n).countP p = 0 := hz n (by omega) (fun hh => hin hh.symm)
        simp [h0]

/-- Claim C7: over the whole raw-text heuristic output, each physical line i
(0-based) yields exactly one unclosed-template warning carrying line number
i + 1 precisely when the line contains an opening delimiter, lacks a closing
one, and its trimmed form ends in no block-scalar indicator - and zero such
warnings otherwise. -/
theorem C7_unclosed_template (file content : String) (i : Nat)
    (h : i < (splitLines content).length) :
    (textWarnings file content).countP (uncPred i) =
      (if strContains ((splitLines content).getD i "") "\x7b\x7b" &&
          !(strContains ((splitLines content).getD i "") "\x7d\x7d") &&
          !([">", "|", ">-", "|-", ">+", "|+"].any (fun c => pyEndswith (pyStrip ((splitLines content).getD i "")) c))
       then 1 else 0) := by
  unfold textWarnings lineLoop
  rw [List.countP_append]
  have htab : (if strContains content "\t" then [(⟨file, "File contains tabs. YAML should use spaces for indentation", none⟩ : Diag)] else []).countP (uncPred i) = 0 := by
    split
    · simp [uncPred]
    · rfl
  rw [htab]
  rw [flatten_range_countP_single
        (fun j => perLineDiags file (splitLines content) j ((splitLines content).getD j ""))
        ((splitLines content).length) i
        (if strContains ((splitLines content).getD i "") "\x7b\x7b" &&
            !(strContains ((splitLines content).getD i "") "\x7d\x7d") &&
            !([">", "|", ">-", "|-", ">+", "|+"].any (fun c => pyEndswith (pyStrip ((splitLines content).getD i "")) c))
         then 1 else 0)
        (by rw [countP_uncPred_perLine]; simp) h
        (fun j hj hji => by rw [countP_uncPred_perLine]; simp [hji])]
  simp

/-- Witness for C7: the single-line document `value: "\x7b\x7b foo"` produces
exactly one unclosed-template warning for line 1. -/
theorem C7_unclosed_template_witness :
    0 < (splitLines "value: \x22\x7b\x7b foo\x22").length ∧
    (textWarnings "f.yaml" "value: \x22\x7b\x7b foo\x22").countP (uncPred 0) = 1 :=
  ⟨by decide,
   Eq.trans (C7_unclosed_template "f.yaml" "value: \x22\x7b\x7b foo\x22" 0 (by decide)) (by decide)⟩

end HABlueprint
